import Mathlib

/-!
Shallow embedding of the TUN/TAP adapter packet pump from src/tuntap/tun.go
(yggdrasil-go). Bytes are modelled as Nat (values < 256 where relevant),
byte buffers as List Nat, time as Nat nanoseconds (time.Since yields a
nanosecond Duration; Seconds() < 30 is exactly ns < 30 * 10^9 at integer
inputs). The neighbor map peermacs is an association list with first-match
lookup and overwrite insert, mirroring a Go map. Go slice expressions that
can panic are embedded as Option-returning functions.
-/

def tun_IPv6_HEADER_LENGTH : Nat := 40

def tun_ETHER_HEADER_LENGTH : Nat := 14

/-- Nanoseconds per second: time.Since returns a Duration in nanoseconds. -/
def nsPerSec : Nat := 1000000000

/-- The neighbor struct from icmpv6.go as used by tun.go: a learned MAC,
the learned flag, and the time of the last solicitation (ns). The Go zero
value of macAddress ([6]byte) is six zero bytes. -/
structure Neighbor where
  mac : List Nat
  learned : Bool
  lastsolicitation : Nat
deriving Repr, DecidableEq

/-- The Go zero value of the 6-byte macAddress array. -/
def zeroMac : List Nat := List.replicate 6 0

/-- peermacs: map[address.Address]neighbor, as an association list. -/
abbrev PeerMap := List (List Nat × Neighbor)

/-- Go map read m[k]: first matching entry, if any. -/
def mapLookup (m : PeerMap) (k : List Nat) : Option Neighbor :=
  match m.find? (fun p => p.1 == k) with
  | some p => some p.2
  | none => none

/-- Go map write m[k] = v: the new binding replaces any previous one. -/
def mapInsert (m : PeerMap) (k : List Nat) (v : Neighbor) : PeerMap :=
  (k, v) :: m.filter (fun p => !(p.1 == k))

/-- Go copy(dst, src): copies min(len dst, len src) bytes into the front of
dst, leaving the rest of dst unchanged. -/
def goCopy (dst src : List Nat) : List Nat :=
  src.take (min dst.length src.length) ++ dst.drop (min dst.length src.length)

/-- Go slice expression l[a:b]: defined only when a ≤ b ≤ len(l), otherwise
the program panics (modelled as none). -/
def goSlice (l : List Nat) (a b : Nat) : Option (List Nat) :=
  if a ≤ b ∧ b ≤ l.length then some ((l.drop a).take (b - a)) else none

/-- sendndp from tun.write (tun.go lines 226-241): look up destAddr in
peermacs; the entry counts as known only when it exists and its last
solicitation is less than 30 seconds old; when not known, a solicitation
frame is written and a fresh entry holding only the new timestamp is
stored. Returns the updated map and whether a solicitation was sent. -/
def sendndp (m : PeerMap) (now : Nat) (destAddr : List Nat) : PeerMap × Bool :=
  let known : Bool :=
    match mapLookup m destAddr with
    | some neigh => decide (now - neigh.lastsolicitation < 30 * nsPerSec)
    | none => false
  if known then
    (m, false)
  else
    (mapInsert m destAddr { mac := zeroMac, learned := false, lastsolicitation := now }, true)

/-- destAddr after the copy in tun.go lines 209-222: for IPv6 the 16 dest
bytes are copied from data[24:], for IPv4 the 4 dest bytes are copied into
the front of the zeroed 16-byte array from data[16:]. -/
def destAddrInitial (data : List Nat) : List Nat :=
  if data.getD 0 0 &&& 0xf0 == 0x60 then
    goCopy (List.replicate 16 0) (data.drop 24)
  else if data.getD 0 0 &&& 0xf0 == 0x40 then
    goCopy (List.replicate 4 0) (data.drop 16) ++ List.replicate 12 0
  else
    List.replicate 16 0

/-- destAddr after tun.go lines 244-250: IPv4 payloads always resolve to the
adapter address; IPv6 payloads keep the packet destination unless it equals
neither tun.addr[:16] nor, on its first 8 bytes, tun.subnet[:8]. -/
def destAddrSelected (tunAddr tunSubnet data d0 : List Nat) : List Nat :=
  if data.getD 0 0 &&& 0xf0 == 0x40 then
    tunAddr
  else if data.getD 0 0 &&& 0xf0 == 0x60 then
    if !(tunAddr.take 16 == d0.take 16) && !(tunSubnet.take 8 == d0.take 8) then
      tunAddr
    else
      d0
  else
    d0

/-- A peermacs entry that exists and is learned yields its MAC. -/
def learnedMac (m : PeerMap) (a : List Nat) : Option (List Nat) :=
  match mapLookup m a with
  | some n => if n.learned then some n.mac else none
  | none => none

/-- The resolution chain of tun.go lines 251-260: the destination entry if
learned; else the adapter-address entry if learned, with sendndp(destAddr);
else no MAC, with sendndp(tun.addr). Returns (MAC if resolved, updated map,
address sendndp was invoked with, whether a solicitation frame was sent). -/
def resolveMac (tunAddr : List Nat) (m : PeerMap) (now : Nat) (dest : List Nat) :
    Option (List Nat) × PeerMap × Option (List Nat) × Bool :=
  match learnedMac m dest with
  | some mac => (some mac, m, none, false)
  | none =>
    match learnedMac m tunAddr with
    | some mac =>
      let s := sendndp m now dest
      (some mac, s.1, some dest, s.2)
    | none =>
      let s := sendndp m now tunAddr
      (none, s.1, some tunAddr, s.2)

/-- Ethertype chosen in tun.go lines 262-268 (ethernet.IPv6 = 0x86DD,
ethernet.IPv4 = 0x0800; the Go zero value otherwise). -/
def ethertypeOf (b0 : Nat) : Nat :=
  if b0 &&& 0xf0 == 0x60 then 0x86DD
  else if b0 &&& 0xf0 == 0x40 then 0x0800
  else 0

/-- ethernet.Frame.Prepare with NotTagged followed by the payload copy at
tun_ETHER_HEADER_LENGTH: destination MAC, source MAC, 2-byte ethertype,
then the payload. -/
def etherFrame (dstMAC srcMAC : List Nat) (proto : Nat) (payload : List Nat) : List Nat :=
  dstMAC.take 6 ++ srcMAC.take 6 ++ [proto / 256, proto % 256] ++ payload

/-- How one iteration of the write loop ends: take the next select case,
return an error, return nil (clean shutdown), or panic. -/
inductive LoopOutcome where
  | next
  | errorReturn
  | cleanReturn
  | panicked
deriving Repr, DecidableEq

/-- Observable effects of one pass of the write loop over an outbound
payload: the updated peermacs, the address sendndp was invoked with (if
any), whether a solicitation frame was actually sent, the data frame
written to the interface (if any), whether util.PutBytes released the
buffer, and how the iteration ended. -/
structure WriteStep where
  peermacs : PeerMap
  ndpCall : Option (List Nat)
  solicitSent : Bool
  wroteFrame : Option (List Nat)
  released : Bool
  outcome : LoopOutcome
deriving Repr, DecidableEq

/-- tun.go lines 251-287: resolve the MAC for the selected destination and,
when resolved, write the Ethernet frame (a failed interface write returns
nil if the adapter is closed and panics otherwise); when unresolved the
payload is dropped and the buffer released. -/
def writeRecvBody (tunAddr tunSubnet mymac : List Nat) (isOpen writeErr : Bool)
    (m : PeerMap) (now : Nat) (data : List Nat) : WriteStep :=
  let d0 := destAddrInitial data
  let dest := destAddrSelected tunAddr tunSubnet data d0
  let r := resolveMac tunAddr m now dest
  match r.1 with
  | some peermac =>
    if writeErr then
      if isOpen then
        ⟨r.2.1, r.2.2.1, r.2.2.2, none, false, .panicked⟩
      else
        ⟨r.2.1, r.2.2.1, r.2.2.2, none, false, .cleanReturn⟩
    else
      ⟨r.2.1, r.2.2.1, r.2.2.2,
        some (etherFrame peermac mymac (ethertypeOf (data.getD 0 0)) data), true, .next⟩
  | none =>
    ⟨r.2.1, r.2.2.1, r.2.2.2, none, true, .next⟩

/-- One pass of the write loop over an outbound payload from tun.Recv
(tun.go lines 203-301): nil-interface check, TAP framing with family and
length checks, or the plain TUN write. writeErr says whether the data-frame
interface write would fail; isOpen is the adapter flag read after such a
failure. -/
def writeRecv (isTAP : Bool) (tunAddr tunSubnet mymac : List Nat)
    (ifacePresent isOpen writeErr : Bool)
    (m : PeerMap) (now : Nat) (data : List Nat) : WriteStep :=
  if !ifacePresent then
    ⟨m, none, false, none, false, .next⟩
  else if isTAP then
    if data.getD 0 0 &&& 0xf0 == 0x60 then
      if data.length < 40 then
        ⟨m, none, false, none, true, .next⟩
      else
        writeRecvBody tunAddr tunSubnet mymac isOpen writeErr m now data
    else if data.getD 0 0 &&& 0xf0 == 0x40 then
      if data.length < 20 then
        ⟨m, none, false, none, true, .next⟩
      else
        writeRecvBody tunAddr tunSubnet mymac isOpen writeErr m now data
    else
      ⟨m, none, false, none, false, .errorReturn⟩
  else
    if writeErr then
      if isOpen then
        ⟨m, none, false, none, false, .panicked⟩
      else
        ⟨m, none, false, none, false, .cleanReturn⟩
    else
      ⟨m, none, false, some data, true, .next⟩

/-- The Packet Too Big branch of the write loop (tun.go lines 181-198)
reads reject.Packet[8:24] and reject.Packet[24:40] with no length check;
the pair of slice reads, Option-valued under Go panic semantics. -/
def ptbAddrFields (packet : List Nat) : Option (List Nat × List Nat) :=
  match goSlice packet 8 24, goSlice packet 24 40 with
  | some src, some dst => some (src, dst)
  | _, _ => none

/-- One pass of the read loop over a device read of n bytes into buf
(tun.go lines 316-346): strip the Ethernet header offset in TAP mode,
validate the declared length for the nibble-detected family, and on
success forward buf[o:n]; ParsePacket is dispatched when the byte at
offset o+6 is 58 and the adapter is in TAP mode. Returns (forwarded
payload if any, whether ParsePacket was dispatched). -/
def readStep (isTAP : Bool) (buf : List Nat) (n : Nat) : Option (List Nat) × Bool :=
  let o := if isTAP then tun_ETHER_HEADER_LENGTH else 0
  let b := fun i => buf.getD i 0
  if (b o &&& 0xf0 == 0x60 && n == 256 * b (o + 4) + b (o + 5) + tun_IPv6_HEADER_LENGTH + o)
      || (b o &&& 0xf0 == 0x40 && n == 256 * b (o + 2) + b (o + 3) + o) then
    (some ((buf.take n).drop o), b (o + 6) == 58 && isTAP)
  else
    (none, false)

/-- What Close observes of the adapter: the running flag, whether an
interface was ever set up, and the result the device close call would
return. -/
structure TunLifecycle where
  isOpen : Bool
  ifacePresent : Bool
  ifaceCloseResult : Option String
deriving Repr, DecidableEq

/-- TunAdapter.Close (tun.go lines 353-361): clear isOpen under the lock;
a nil interface yields a nil error, otherwise the device close result is
returned. -/
def closeAdapter (t : TunLifecycle) : TunLifecycle × Option String :=
  let t2 := { t with isOpen := false }
  if !t.ifacePresent then
    (t2, none)
  else
    (t2, t.ifaceCloseResult)

/-! Helper lemmas shared by several results. -/

/-- Looking up the key just written into the map yields the new entry. -/
theorem mapLookup_insert (m : PeerMap) (k : List Nat) (v : Neighbor) :
    mapLookup (mapInsert m k v) k = some v := by
  unfold mapLookup mapInsert
  rw [List.find?_cons_of_pos _ (by simp)]

/-- sendndp sends a solicitation exactly when no entry exists or at least
30 seconds have elapsed since the recorded last solicitation. -/
theorem sendndp_sent_iff (m : PeerMap) (now : Nat) (a : List Nat) :
    (sendndp m now a).2 = true ↔
      mapLookup m a = none ∨
      ∃ neigh, mapLookup m a = some neigh ∧
        30 * nsPerSec ≤ now - neigh.lastsolicitation := by
  unfold sendndp
  cases hfind : mapLookup m a with
  | none => simp [hfind]
  | some neigh =>
    by_cases hlt : now - neigh.lastsolicitation < 30 * nsPerSec
    · simp [hfind, hlt]
    · simp [hfind, hlt]
      omega

/-- After sendndp actually sends, the map holds a fresh zero entry with the
new timestamp for that address. -/
theorem sendndp_sent_lookup (m : PeerMap) (now : Nat) (a : List Nat)
    (h : (sendndp m now a).2 = true) :
    mapLookup (sendndp m now a).1 a =
      some { mac := zeroMac, learned := false, lastsolicitation := now } := by
  unfold sendndp at h ⊢
  cases hfind : mapLookup m a with
  | none => simp [hfind, mapLookup_insert]
  | some neigh =>
    simp only [hfind] at h ⊢
    by_cases hlt : now - neigh.lastsolicitation < 30 * nsPerSec
    · simp [hlt] at h
    · simp [hlt, mapLookup_insert]

/-- C1 counterexample: with a cache entry whose last solicitation is
exactly 30 seconds old, sendndp does send a solicitation, although an
entry exists and not strictly more than 30 seconds have elapsed. -/
theorem sendndp_thirty_boundary :
    (sendndp [(List.replicate 16 2,
        { mac := zeroMac, learned := false, lastsolicitation := 0 })]
      (30 * nsPerSec) (List.replicate 16 2)).2 = true ∧
    mapLookup [(List.replicate 16 2,
        { mac := zeroMac, learned := false, lastsolicitation := 0 })]
      (List.replicate 16 2) =
      some { mac := zeroMac, learned := false, lastsolicitation := 0 } ∧
    ¬(30 * nsPerSec < 30 * nsPerSec - 0) := by
  refine ⟨by decide, by decide, by omega⟩

/-- C1 amended: the write loop sends a solicitation for a key iff no cache
entry exists or at least 30 seconds (not strictly more) have elapsed since
the last recorded solicitation; consequently a second sendndp for the same
key strictly within 30 seconds of a sent solicitation sends nothing, and
one at least 30 seconds later sends again. -/
theorem sendndp_throttle (m : PeerMap) (now : Nat) (a : List Nat) :
    ((sendndp m now a).2 = true ↔
      mapLookup m a = none ∨
      ∃ neigh, mapLookup m a = some neigh ∧
        30 * nsPerSec ≤ now - neigh.lastsolicitation) ∧
    (∀ later, (sendndp m now a).2 = true → later - now < 30 * nsPerSec →
      (sendndp (sendndp m now a).1 later a).2 = false) ∧
    (∀ later, (sendndp m now a).2 = true → 30 * nsPerSec ≤ later - now →
      (sendndp (sendndp m now a).1 later a).2 = true) := by
  refine ⟨sendndp_sent_iff m now a, ?_, ?_⟩
  · intro later h hlt
    have hl := sendndp_sent_lookup m now a h
    revert hl
    generalize (sendndp m now a).1 = m2
    intro hl
    unfold sendndp
    simp [hl, hlt]
  · intro later h hle
    have hl := sendndp_sent_lookup m now a h
    revert hl
    generalize (sendndp m now a).1 = m2
    intro hl
    unfold sendndp
    have hnlt : ¬(later - now < 30 * nsPerSec) := by omega
    simp [hl, hnlt]

/-- C1 witness: concrete first solicitation at time 0, a second attempt
1 ns later is suppressed, and one 30 s later goes out. -/
theorem sendndp_throttle_witness :
    (sendndp (sendndp [] 0 (List.replicate 16 2)).1 1 (List.replicate 16 2)).2 = false ∧
    (sendndp (sendndp [] 0 (List.replicate 16 2)).1 (30 * nsPerSec)
      (List.replicate 16 2)).2 = true :=
  ⟨(sendndp_throttle [] 0 (List.replicate 16 2)).2.1 1 (by decide) (by decide),
   (sendndp_throttle [] 0 (List.replicate 16 2)).2.2 (30 * nsPerSec) (by decide) (by decide)⟩

/-- C8: the Packet Too Big branch reads packet[8:24] and packet[24:40]
with no length check; both slice reads are in bounds exactly when the
rejected packet is at least 40 bytes long. -/
theorem ptb_slice_bounds (packet : List Nat) :
    (ptbAddrFields packet).isSome = true ↔ 40 ≤ packet.length := by
  unfold ptbAddrFields goSlice
  by_cases h40 : 40 ≤ packet.length
  · have h24 : 24 ≤ packet.length := by omega
    simp [h24, h40]
  · by_cases h24 : 24 ≤ packet.length
    · simp [h24, h40]
    · simp [h24, h40]

/-- C9: when sendndp sends a solicitation for an address that already had
an entry, the whole entry is replaced by a fresh one holding only the new
timestamp: the stored MAC becomes the zero MAC and learned becomes false. -/
theorem sendndp_resets_entry (m : PeerMap) (now : Nat) (a : List Nat)
    (prev : Neighbor) (_hprev : mapLookup m a = some prev)
    (h : (sendndp m now a).2 = true) :
    mapLookup (sendndp m now a).1 a =
      some { mac := zeroMac, learned := false, lastsolicitation := now } :=
  sendndp_sent_lookup m now a h

/-- C9 witness: a learned entry with a nonzero MAC, 30 s stale, is wiped
to the zero entry by the solicitation. -/
theorem sendndp_resets_entry_witness :
    mapLookup (sendndp [(List.replicate 16 9,
        { mac := List.replicate 6 7, learned := true, lastsolicitation := 0 })]
      (30 * nsPerSec) (List.replicate 16 9)).1 (List.replicate 16 9) =
      some { mac := zeroMac, learned := false, lastsolicitation := 30 * nsPerSec } :=
  sendndp_resets_entry _ (30 * nsPerSec) (List.replicate 16 9)
    { mac := List.replicate 6 7, learned := true, lastsolicitation := 0 }
    (by decide) (by decide)

/-- C10: Close clears isOpen under the lock and returns nil whenever the
interface was never set up; only with an interface present does it return
the device close result. -/
theorem close_never_opened (t : TunLifecycle) :
    (closeAdapter t).1.isOpen = false ∧
    (t.ifacePresent = false → (closeAdapter t).2 = none) ∧
    (t.ifacePresent = true → (closeAdapter t).2 = t.ifaceCloseResult) := by
  unfold closeAdapter
  cases h : t.ifacePresent <;> simp [h]

/-- C10 witness: closing an adapter that never opened yields no error and
a cleared flag. -/
theorem close_never_opened_witness :
    (closeAdapter ⟨true, false, none⟩).2 = none ∧
    (closeAdapter ⟨true, false, none⟩).1.isOpen = false :=
  ⟨(close_never_opened ⟨true, false, none⟩).2.1 rfl,
   (close_never_opened ⟨true, false, none⟩).1⟩

/-- C5: in TAP mode with an interface present, an outbound payload whose
top nibble is neither 0x4 nor 0x6 makes the write loop return an error
(terminating the loop) rather than silently dropping the packet. -/
theorem write_invalid_family_error (tunAddr tunSubnet mymac : List Nat)
    (isOpen writeErr : Bool) (m : PeerMap) (now : Nat) (data : List Nat)
    (h6 : ¬(data.getD 0 0 &&& 0xf0 = 0x60)) (h4 : ¬(data.getD 0 0 &&& 0xf0 = 0x40)) :
    writeRecv true tunAddr tunSubnet mymac true isOpen writeErr m now data =
      ⟨m, none, false, none, false, .errorReturn⟩ := by
  have hb6 : (data.getD 0 0 &&& 0xf0 == 0x60) = false := by simpa using h6
  have hb4 : (data.getD 0 0 &&& 0xf0 == 0x40) = false := by simpa using h4
  unfold writeRecv
  simp only [hb6, hb4]
  simp

/-- C5 witness: a payload starting with byte 0x00 in TAP mode terminates
the write loop with an error. -/
theorem write_invalid_family_error_witness :
    writeRecv true [] [] [] true true false [] 0 [0x00] =
      ⟨[], none, false, none, false, .errorReturn⟩ :=
  write_invalid_family_error [] [] [] true false [] 0 [0x00] (by decide) (by decide)

/-- C7 counterexample: a payload taken from Recv while the interface is nil
is skipped by continue without util.PutBytes, so its buffer is not
released, contrary to the claim that every path releases it. -/
theorem write_nil_iface_no_release :
    (writeRecv true (List.replicate 16 3) (List.replicate 8 3) zeroMac
      false true false [] 0 (List.replicate 40 0x60)).released = false := by
  rfl

/-- C7 amended: the buffer is released exactly on the iterations that have
an interface present and end by continuing to the next select pass (the
successful write, too-short drop and unresolved-MAC drop); it is not
released when the interface is nil, on the invalid-family error return, on
a write-failure clean return after close, or on a write-failure panic. -/
theorem write_release_characterization (isTAP : Bool) (tunAddr tunSubnet mymac : List Nat)
    (ifacePresent isOpen writeErr : Bool) (m : PeerMap) (now : Nat) (data : List Nat) :
    (writeRecv isTAP tunAddr tunSubnet mymac ifacePresent isOpen writeErr m now data).released =
      (ifacePresent &&
        ((writeRecv isTAP tunAddr tunSubnet mymac ifacePresent isOpen writeErr
            m now data).outcome == LoopOutcome.next)) := by
  unfold writeRecv writeRecvBody
  repeat' split
  all_goals try simp_all
  all_goals
    cases (resolveMac tunAddr m now
      (destAddrSelected tunAddr tunSubnet data (destAddrInitial data))).1 <;> simp_all

/-- C6 counterexample: a length-valid IPv4 packet (top nibble 0x4) whose
byte at offset 6 past the Ethernet header equals 58 also dispatches
ParsePacket in TAP mode, contradicting the IPv6-only dispatch condition. -/
theorem read_dispatch_ipv4_counterexample :
    (readStep true (List.replicate 14 0 ++ [0x45, 0, 0, 20, 0, 0, 58] ++
      List.replicate 13 0) 34).2 = true ∧
    (readStep true (List.replicate 14 0 ++ [0x45, 0, 0, 20, 0, 0, 58] ++
      List.replicate 13 0) 34).1.isSome = true ∧
    ((List.replicate 14 0 ++ [0x45, 0, 0, 20, 0, 0, 58] ++
      List.replicate 13 0).getD 14 0) &&& 0xf0 = 0x40 := by
  refine ⟨by rfl, by rfl, by rfl⟩

/-- C6 amended: ParsePacket is dispatched iff the packet passed length
validation, the byte at offset 6 past the Ethernet-header offset equals 58,
and the adapter is in TAP mode — regardless of the packet's address
family (for IPv6 that byte is the next-header field, but an IPv4 packet
whose sixth header byte is 58 also triggers parsing). -/
theorem read_dispatch_characterization (isTAP : Bool) (buf : List Nat) (n : Nat) :
    (readStep isTAP buf n).2 = true ↔
      (readStep isTAP buf n).1.isSome = true ∧
      buf.getD ((if isTAP then tun_ETHER_HEADER_LENGTH else 0) + 6) 0 = 58 ∧
      isTAP = true := by
  unfold readStep
  cases isTAP
  · simp only [Bool.false_eq_true, if_false]
    split <;> simp_all
  · simp only [if_true]
    split <;> simp_all

/-- When the whole destination width fits in the source, the Go copy into a
zeroed array yields exactly the source prefix. -/
theorem goCopy_full (src : List Nat) (k : Nat) (h : k ≤ src.length) :
    goCopy (List.replicate k 0) src = src.take k := by
  unfold goCopy
  have hm : min (List.replicate k 0).length src.length = k := by
    simp [List.length_replicate]
    omega
  rw [hm]
  simp

/-- When the destination entry is unlearned but the adapter-address entry
is learned, resolution yields the adapter MAC and invokes sendndp on the
destination. -/
theorem resolveMac_fallback (tunAddr : List Nat) (m : PeerMap) (now : Nat)
    (dest mac : List Nat)
    (h1 : learnedMac m dest = none) (h2 : learnedMac m tunAddr = some mac) :
    resolveMac tunAddr m now dest =
      (some mac, (sendndp m now dest).1, some dest, (sendndp m now dest).2) := by
  unfold resolveMac
  rw [h1, h2]

/-- When neither entry is learned, resolution yields no MAC and invokes
sendndp on the adapter address. -/
theorem resolveMac_unresolved (tunAddr : List Nat) (m : PeerMap) (now : Nat)
    (dest : List Nat)
    (h1 : learnedMac m dest = none) (h2 : learnedMac m tunAddr = none) :
    resolveMac tunAddr m now dest =
      (none, (sendndp m now tunAddr).1, some tunAddr, (sendndp m now tunAddr).2) := by
  unfold resolveMac
  rw [h1, h2]

/-- C2: with o the Ethernet offset (14 in TAP mode, 0 otherwise) and a
device read of n bytes, the read loop forwards a payload iff the byte
count equals the header-declared length (IPv6: payload length plus the
40-byte header plus o; IPv4: total length plus o); otherwise — including
a top nibble that is neither 4 nor 6 — the packet is dropped; and every
forwarded payload's byte length equals its header-declared length after
the Ethernet offset has been stripped. -/
theorem read_length_validation (isTAP : Bool) (buf : List Nat) (n o : Nat)
    (ho : o = if isTAP then tun_ETHER_HEADER_LENGTH else 0)
    (hn : n ≤ buf.length) :
    ((readStep isTAP buf n).1.isSome = true ↔
      (buf.getD o 0 &&& 0xf0 = 0x60 ∧
        n = 256 * buf.getD (o + 4) 0 + buf.getD (o + 5) 0 + tun_IPv6_HEADER_LENGTH + o) ∨
      (buf.getD o 0 &&& 0xf0 = 0x40 ∧
        n = 256 * buf.getD (o + 2) 0 + buf.getD (o + 3) 0 + o)) ∧
    (∀ pkt, (readStep isTAP buf n).1 = some pkt →
      (buf.getD o 0 &&& 0xf0 = 0x60 →
        pkt.length = 256 * buf.getD (o + 4) 0 + buf.getD (o + 5) 0 + tun_IPv6_HEADER_LENGTH) ∧
      (buf.getD o 0 &&& 0xf0 = 0x40 →
        pkt.length = 256 * buf.getD (o + 2) 0 + buf.getD (o + 3) 0)) := by
  subst ho
  unfold readStep
  cases isTAP
  all_goals simp only [Bool.false_eq_true, if_false, if_true]
  all_goals
    (split
     · rename_i hg
       simp only [Bool.or_eq_true, Bool.and_eq_true, beq_iff_eq] at hg
       refine ⟨Iff.intro (fun _ => hg) (fun _ => rfl), ?_⟩
       intro pkt hpkt
       have hpk : pkt = _ := Option.some_injective _ (by exact hpkt.symm)
       subst hpk
       refine ⟨fun hv => ?_, fun hv => ?_⟩ <;>
         (rcases hg with ⟨h1, h2⟩ | ⟨h1, h2⟩ <;>
           simp only [List.length_drop, List.length_take] <;> omega)
     · rename_i hg
       simp only [Bool.or_eq_true, Bool.and_eq_true, beq_iff_eq] at hg
       refine ⟨?_, ?_⟩
       · simp only [Option.isSome_none]
         exact iff_of_false (by simp) hg
       · intro pkt hpkt
         exact Option.noConfusion hpkt)

/-- C2 witness: a minimal 40-byte IPv6 packet read in TUN mode, with zero
payload length, passes validation and is forwarded. -/
theorem read_length_validation_witness :
    (readStep false (0x60 :: List.replicate 39 0) 40).1.isSome = true :=
  (read_length_validation false (0x60 :: List.replicate 39 0) 40 0
    (by decide) (by decide)).1.mpr (Or.inl (by decide))

/-- C3: the destination address whose MAC is looked up in TAP mode: an
IPv4-shaped payload always uses the adapter's own address; an IPv6-shaped
payload uses the packet's destination field unless that field equals
neither the adapter's 128-bit address nor, on its first 8 bytes, the
adapter's 64-bit subnet prefix, in which case the adapter's own address is
used instead. -/
theorem write_dest_selection (tunAddr tunSubnet data : List Nat)
    (haddr : tunAddr.length = 16) (hsub : tunSubnet.length = 8) :
    (data.getD 0 0 &&& 0xf0 = 0x40 →
      destAddrSelected tunAddr tunSubnet data (destAddrInitial data) = tunAddr) ∧
    (data.getD 0 0 &&& 0xf0 = 0x60 → 40 ≤ data.length →
      destAddrSelected tunAddr tunSubnet data (destAddrInitial data) =
        (if tunAddr ≠ (data.drop 24).take 16 ∧ tunSubnet ≠ (data.drop 24).take 8
         then tunAddr
         else (data.drop 24).take 16)) := by
  constructor
  · intro h4
    have hb4 : (data.getD 0 0 &&& 0xf0 == 0x40) = true := by simpa using h4
    unfold destAddrSelected
    simp only [hb4, if_true]
  · intro h6 hlen
    have hb6 : (data.getD 0 0 &&& 0xf0 == 0x60) = true := by simpa using h6
    have hb4 : (data.getD 0 0 &&& 0xf0 == 0x40) = false := by
      simp only [beq_eq_false_iff_ne]
      omega
    have hd0 : destAddrInitial data = (data.drop 24).take 16 := by
      unfold destAddrInitial
      simp only [hb6, if_true]
      exact goCopy_full (data.drop 24) 16 (by simp [List.length_drop]; omega)
    have e1 : ((data.drop 24).take 16).take 16 = (data.drop 24).take 16 := by
      rw [List.take_take]
      norm_num
    have e2 : ((data.drop 24).take 16).take 8 = (data.drop 24).take 8 := by
      rw [List.take_take]
      norm_num
    have e3 : tunAddr.take 16 = tunAddr := List.take_of_length_le (le_of_eq haddr)
    have e4 : tunSubnet.take 8 = tunSubnet := List.take_of_length_le (le_of_eq hsub)
    unfold destAddrSelected
    simp only [hb4, hb6, if_true, Bool.false_eq_true, if_false, hd0, e1, e2, e3, e4]
    by_cases h1 : tunAddr = (data.drop 24).take 16 <;>
      by_cases h2 : tunSubnet = (data.drop 24).take 8 <;>
        simp [h1, h2]

/-- C3 witness: an IPv6 payload whose destination is neither the adapter
address nor in its subnet resolves to the adapter's own address. -/
theorem write_dest_selection_witness :
    destAddrSelected (List.replicate 16 1) (List.replicate 8 1)
      (0x60 :: List.replicate 39 0)
      (destAddrInitial (0x60 :: List.replicate 39 0)) = List.replicate 16 1 := by
  have h := (write_dest_selection (List.replicate 16 1) (List.replicate 8 1)
    (0x60 :: List.replicate 39 0) (by decide) (by decide)).2 (by decide) (by decide)
  rw [h]
  decide

/-- C4: in TAP mode, for a well-formed outbound payload whose selected
destination has no learned MAC: if the adapter's own address has a learned
MAC, the frame is sent with that MAC and sendndp is invoked for the real
destination; if neither has a learned MAC, no frame is written, sendndp is
invoked for the adapter's own address, and the payload is dropped with its
buffer released. -/
theorem write_mac_fallback (tunAddr tunSubnet mymac : List Nat) (isOpen : Bool)
    (m : PeerMap) (now : Nat) (data dest : List Nat)
    (hdest : dest = destAddrSelected tunAddr tunSubnet data (destAddrInitial data))
    (hfam : (data.getD 0 0 &&& 0xf0 = 0x60 ∧ 40 ≤ data.length) ∨
            (data.getD 0 0 &&& 0xf0 = 0x40 ∧ 20 ≤ data.length))
    (hmiss : learnedMac m dest = none) :
    (∀ mac, learnedMac m tunAddr = some mac →
      (writeRecv true tunAddr tunSubnet mymac true isOpen false m now data).wroteFrame =
        some (etherFrame mac mymac (ethertypeOf (data.getD 0 0)) data) ∧
      (writeRecv true tunAddr tunSubnet mymac true isOpen false m now data).ndpCall =
        some dest) ∧
    (learnedMac m tunAddr = none →
      (writeRecv true tunAddr tunSubnet mymac true isOpen false m now data).wroteFrame =
        none ∧
      (writeRecv true tunAddr tunSubnet mymac true isOpen false m now data).ndpCall =
        some tunAddr ∧
      (writeRecv true tunAddr tunSubnet mymac true isOpen false m now data).released = true ∧
      (writeRecv true tunAddr tunSubnet mymac true isOpen false m now data).outcome =
        LoopOutcome.next) := by
  subst hdest
  constructor
  · intro mac hmac
    have hr := resolveMac_fallback tunAddr m now
      (destAddrSelected tunAddr tunSubnet data (destAddrInitial data)) mac hmiss hmac
    unfold writeRecv writeRecvBody
    rcases hfam with ⟨h6, hlen⟩ | ⟨h4, hlen⟩
    · have hb6 : (data.getD 0 0 &&& 0xf0 == 0x60) = true := by simpa using h6
      have hnl : ¬(data.length < 40) := by omega
      simp only [hb6, if_true, hnl, if_false, hr]
      simp
    · have hb4 : (data.getD 0 0 &&& 0xf0 == 0x40) = true := by simpa using h4
      have hb6 : (data.getD 0 0 &&& 0xf0 == 0x60) = false := by
        simp only [beq_eq_false_iff_ne]
        omega
      have hnl : ¬(data.length < 20) := by omega
      simp only [hb4, hb6, if_true, Bool.false_eq_true, if_false, hnl, hr]
      simp
  · intro hnone
    have hr := resolveMac_unresolved tunAddr m now
      (destAddrSelected tunAddr tunSubnet data (destAddrInitial data)) hmiss hnone
    unfold writeRecv writeRecvBody
    rcases hfam with ⟨h6, hlen⟩ | ⟨h4, hlen⟩
    · have hb6 : (data.getD 0 0 &&& 0xf0 == 0x60) = true := by simpa using h6
      have hnl : ¬(data.length < 40) := by omega
      simp only [hb6, if_true, hnl, if_false, hr]
      simp
    · have hb4 : (data.getD 0 0 &&& 0xf0 == 0x40) = true := by simpa using h4
      have hb6 : (data.getD 0 0 &&& 0xf0 == 0x60) = false := by
        simp only [beq_eq_false_iff_ne]
        omega
      have hnl : ¬(data.length < 20) := by omega
      simp only [hb4, hb6, if_true, Bool.false_eq_true, if_false, hnl, hr]
      simp

/-- C4 witness: with an empty cache, an IPv6 payload writes no frame and
sendndp is invoked for the adapter's own address. -/
theorem write_mac_fallback_witness :
    (writeRecv true (List.replicate 16 1) (List.replicate 8 1) zeroMac true true false
      [] 0 (0x60 :: List.replicate 39 0)).wroteFrame = none ∧
    (writeRecv true (List.replicate 16 1) (List.replicate 8 1) zeroMac true true false
      [] 0 (0x60 :: List.replicate 39 0)).ndpCall = some (List.replicate 16 1) :=
  have h := (write_mac_fallback (List.replicate 16 1) (List.replicate 8 1) zeroMac true
    [] 0 (0x60 :: List.replicate 39 0) _ rfl (Or.inl (by decide)) (by decide)).2 (by decide)
  ⟨h.1, h.2.1⟩
